import Mathlib

/-!
Shallow embedding of the ai-health-chain frontend (React dashboard for a
healthcare records platform) and proofs about its client-side logic.

JS strings are modelled as Lean `String` (a list of characters); `slice`
is modelled by `List.take`/`List.drop` on `String.data`.  JS `undefined`
and `null` become `Option`/empty-string sentinels where the code tests
truthiness.  Stateful React components become explicit state records with
pure state-transition functions for each code path (success branch, catch
branch, event handlers, effects).  A thrown API error is the `.error`
case of an `Except String` argument carrying `err.message` (the empty
string standing for a missing message, which is falsy in JS).
-/

namespace HealthChain

/-! ## Domain entities (src data model: plain records from the external API) -/

structure Patient where
  id : String
  patientId : String
  name : String
  dateOfBirth : String
  gender : String
  email : String
  phone : String
  address : String
  walletAddress : String
  createdAt : String
deriving DecidableEq

structure MedicalRecord where
  id : String
  type : String
  title : String
  date : String
  description : String
  doctor : String
  hospital : String
  status : String
  blockchainHash : String
deriving DecidableEq

structure Consent where
  id : String
  patientId : String
  purpose : String
  status : String
  walletAddress : String
  createdAt : String
  blockchainTxHash : Option String
deriving DecidableEq

structure Transaction where
  id : String
  type : String
  amount : Nat
  currency : String
  status : String
  fromAddress : String
  toAddress : String
  blockNumber : Nat
  timestamp : String
  gasUsed : String
  blockchainTxHash : String
deriving DecidableEq

structure Stats where
  totalPatients : Nat
  totalRecords : Nat
  totalConsents : Nat
  activeConsents : Nat
  pendingConsents : Nat
  totalTransactions : Nat
deriving DecidableEq

/-! ## formatUtilService (src/unnamed/part_003)

`formatDate` calls `new Date(dateString).toLocaleDateString("en-US",
{year: "numeric", month: "short", day: "numeric"})`.  For a date-only ISO
string `YYYY-MM-DD`, `new Date` parses to UTC midnight of that civil date,
and `toLocaleDateString` renders the instant in the HOST timezone.  The
host environment is modelled explicitly: the timezone offset the runtime
applies, plus the current clock (which `formatDate` never reads). -/

structure JsEnv where
  tzOffsetMinutes : Int
  nowEpochMillis : Int
deriving DecidableEq

/-- Split a character list on `'-'` separators (models `"y-m-d"` shape). -/
def splitDash : List Char → List (List Char)
  | [] => [[]]
  | c :: cs =>
    let r := splitDash cs
    if c = '-' then [] :: r
    else
      match r with
      | [] => [[c]]
      | g :: gs => (c :: g) :: gs

/-- Parse a run of decimal digits, most significant first, accumulating
into `acc`; `none` on any non-digit. -/
def digitsToNatAux : List Char → Nat → Option Nat
  | [], acc => some acc
  | c :: cs, acc =>
    if c.isDigit then digitsToNatAux cs (acc * 10 + (c.toNat - 48)) else none

/-- Parse a run of decimal digits to a number; `none` on any non-digit. -/
def digitsToNat (l : List Char) : Option Nat :=
  digitsToNatAux l 0

/-- Parse `YYYY-MM-DD` (the ISO date-only form accepted by `new Date`) to
a civil year/month/day triple; `none` for anything else. -/
def parseIsoDate (s : String) : Option (Int × Int × Int) :=
  match splitDash s.data with
  | [ys, ms, ds] =>
    if ys.length = 4 ∧ ms.length = 2 ∧ ds.length = 2 then
      match digitsToNat ys, digitsToNat ms, digitsToNat ds with
      | some y, some m, some d =>
        if 1 ≤ m ∧ m ≤ 12 ∧ 1 ≤ d ∧ d ≤ 31 then some ((y : Int), (m : Int), (d : Int))
        else none
      | _, _, _ => none
    else none
  | _ => none

/-- Days since the Unix epoch of a civil date (Gregorian calendar),
the arithmetic `new Date(y, m, d)`/`Date.UTC` performs. -/
def daysFromCivil (y m d : Int) : Int :=
  let y := if m ≤ 2 then y - 1 else y
  let era := y.ediv 400
  let yoe := y - era * 400
  let mp := if 2 < m then m - 3 else m + 9
  let doy := (153 * mp + 2).ediv 5 + d - 1
  let doe := yoe * 365 + yoe.ediv 4 - yoe.ediv 100 + doy
  era * 146097 + doe - 719468

/-- Civil date from days since the Unix epoch (inverse of `daysFromCivil`). -/
def civilFromDays (z : Int) : Int × Int × Int :=
  let z := z + 719468
  let era := z.ediv 146097
  let doe := z - era * 146097
  let yoe := (doe - doe.ediv 1460 + doe.ediv 36524 - doe.ediv 146096).ediv 365
  let y := yoe + era * 400
  let doy := doe - (365 * yoe + yoe.ediv 4 - yoe.ediv 100)
  let mp := (5 * doy + 2).ediv 153
  let d := doy - (153 * mp + 2).ediv 5 + 1
  let m := if mp < 10 then mp + 3 else mp - 9
  (if m ≤ 2 then y + 1 else y, m, d)

/-- en-US abbreviated month names used by `toLocaleDateString`. -/
def monthAbbrev (m : Int) : String :=
  if m = 1 then "Jan" else if m = 2 then "Feb" else if m = 3 then "Mar"
  else if m = 4 then "Apr" else if m = 5 then "May" else if m = 6 then "Jun"
  else if m = 7 then "Jul" else if m = 8 then "Aug" else if m = 9 then "Sep"
  else if m = 10 then "Oct" else if m = 11 then "Nov" else "Dec"

/-- Source `formatDate` from formatUtilService: parse the ISO date string to UTC
midnight, shift the instant by the host timezone offset, and render the
resulting local civil date as `"Mon D, YYYY"` (en-US short form).
`"Invalid Date"` is what `toLocaleDateString` yields on an unparsable
string. -/
def formatDate (env : JsEnv) (dateString : String) : String :=
  match parseIsoDate dateString with
  | none => "Invalid Date"
  | some (y, m, d) =>
    let epochDays := daysFromCivil y m d
    let epochMillis := epochDays * 86400000
    let localMillis := epochMillis + env.tzOffsetMinutes * 60000
    let localDays := localMillis.ediv 86400000
    match civilFromDays localDays with
    | (ly, lm, ld) => monthAbbrev lm ++ " " ++ toString ld ++ ", " ++ toString ly

/-- Source `truncateDescription` from formatUtilService:
`text.length <= maxLength ? text : text.slice(0, maxLength) + "..."`. -/
def truncateDescription (text : String) (maxLength : Nat) : String :=
  if text.length ≤ maxLength then text
  else String.mk (text.data.take maxLength) ++ "..."

/-- Source `formatWalletAddress` from formatUtilService: empty string on a falsy
address, otherwise `address.slice(0, 8) + "..." + address.slice(-6)`
(JS `slice(-6)` takes the last 6 characters, or the whole string when it
is shorter than 6). -/
def formatWalletAddress (address : String) : String :=
  if address = "" then ""
  else
    String.mk (address.data.take 8) ++ "..." ++
      String.mk (address.data.drop (address.data.length - 6))

/-! ## Shared fetch plumbing

Each data-fetching component runs `try { ... } catch (err) {
setError(err.message || fallback); <clear data> } finally {
setLoading(false) }`.  `errMsg` models `err.message || fallback` (the
empty string models a missing/empty message, falsy in JS). -/

def errMsg (message fallback : String) : String :=
  if message = "" then fallback else message

/-- What a component renders: the loading screen, the error screen with
the stored message, or the data view. -/
inductive ComponentView (α : Type) where
  | loading
  | errorView (msg : String)
  | content (a : α)
deriving DecidableEq

/-! ## ConsentManagement (src/frontend/src/components/ConsentManagement.js) -/

structure ConsentsResponse where
  consents : Option (List Consent)
deriving DecidableEq

structure ConsentState where
  consents : List Consent
  loading : Bool
  error : Option String
  filterStatus : String
deriving DecidableEq

/-- Source `fetchConsents`: on success store `response.consents || []`; on a
thrown error store `err.message || 'Failed to fetch consents'` and clear
the list; `finally` clears the loading flag either way. -/
def fetchConsents (result : Except String ConsentsResponse) (s : ConsentState) :
    ConsentState :=
  match result with
  | .ok response =>
    { s with consents := response.consents.getD [], error := none, loading := false }
  | .error e =>
    { s with error := some (errMsg e "Failed to fetch consents"),
             consents := [], loading := false }

/-- ConsentManagement render: loading screen while `loading`, error screen
when `error` is set, otherwise the consent list. -/
def renderConsentManagement (s : ConsentState) : ComponentView (List Consent) :=
  match s.loading, s.error with
  | true, _ => .loading
  | false, some m => .errorView m
  | false, none => .content s.consents

structure ConsentUpdateBody where
  status : String
deriving DecidableEq

structure UpdateConsentRequest where
  consentId : String
  body : ConsentUpdateBody
deriving DecidableEq

/-- Source `handleUpdateStatus`: declared with the single parameter `consentId`;
the status argument the caller passes is dropped by JS call semantics
(modelled as an ignored second parameter).  Always calls
`apiService.updateConsent(consentId, { status: "active" })`. -/
def handleUpdateStatus (consentId : String) (_passedStatus : String) :
    UpdateConsentRequest :=
  { consentId := consentId, body := { status := "active" } }

/-- ConcentCard `handleApprove`: calls `onUpdateStatus(consent.id, 'active')`. -/
def concentCardApprove (consent : Consent) : String × String :=
  (consent.id, "active")

/-! ## PatientList (src/unnamed/part_001) -/

structure PaginationData where
  page : Nat
  totalPages : Nat
deriving DecidableEq

structure PatientsResponse where
  patients : Option (List Patient)
  pagination : PaginationData
deriving DecidableEq

/-- The pagination object the component stores: the server-reported
fields spread together with the two derived flags. -/
structure StoredPagination where
  page : Nat
  totalPages : Nat
  hasNextPage : Bool
  hasPrevPage : Bool
deriving DecidableEq

structure PatientListState where
  patients : List Patient
  loading : Bool
  error : Option String
  searchTerm : String
  searchInput : String
  currentPage : Nat
  pagination : Option StoredPagination
  /-- Remaining milliseconds of the pending debounce timeout, if one is
  scheduled (models the `setTimeout` handle of the debounce effect). -/
  debounceTimer : Option Nat
deriving DecidableEq

/-- Source `fetchPatients`: on success store `response.patients || []`, set
`currentPage` from `response.pagination.page`, and store the pagination
spread with `hasNextPage := page < totalPages` and
`hasPrevPage := page > 1`; on a thrown error store
`err.message || 'Failed to fetch patients'` and clear the patient list;
`finally` clears the loading flag. -/
def fetchPatients (result : Except String PatientsResponse) (s : PatientListState) :
    PatientListState :=
  match result with
  | .ok response =>
    { s with patients := response.patients.getD [],
             currentPage := response.pagination.page,
             pagination := some
               { page := response.pagination.page,
                 totalPages := response.pagination.totalPages,
                 hasNextPage := decide (response.pagination.page < response.pagination.totalPages),
                 hasPrevPage := decide (1 < response.pagination.page) },
             error := none, loading := false }
  | .error e =>
    { s with error := some (errMsg e "Failed to fetch patients"),
             patients := [], loading := false }

/-- PatientList render: loading screen, then error screen, then the list. -/
def renderPatientList (s : PatientListState) : ComponentView (List Patient) :=
  match s.loading, s.error with
  | true, _ => .loading
  | false, some m => .errorView m
  | false, none => .content s.patients

/-- The two events the debounce effect reacts to: a change of the search
input (which clears any pending timeout and schedules a fresh 500 ms
one), and the passage of `n` milliseconds of quiet. -/
inductive DebEvent where
  | input (v : String)
  | tick (n : Nat)

/-- One step of the PatientList debounce machinery.  An input change sets
`searchInput` immediately, cancels the pending timeout (the effect
cleanup runs `clearTimeout`) and schedules a new 500 ms timeout.  When
enough quiet time elapses the timeout fires: `setSearchTerm(searchInput)`
and `setCurrentPage(1)`. -/
def debStep (s : PatientListState) : DebEvent → PatientListState
  | .input v => { s with searchInput := v, debounceTimer := some 500 }
  | .tick n =>
    match s.debounceTimer with
    | none => s
    | some m =>
      if m ≤ n then
        { s with searchTerm := s.searchInput, currentPage := 1, debounceTimer := none }
      else
        { s with debounceTimer := some (m - n) }

/-- Run a sequence of debounce events. -/
def debRun (s : PatientListState) (es : List DebEvent) : PatientListState :=
  es.foldl debStep s

/-- Predicate `noExpire pending es` holds when, starting with `pending` milliseconds
left on the scheduled timeout (if any), no timeout ever fires along `es`:
every quiet stretch between consecutive input changes stays under the
remaining delay, each input rescheduling a full 500 ms. -/
def noExpire : Option Nat → List DebEvent → Bool
  | _, [] => true
  | _, .input _ :: es => noExpire (some 500) es
  | none, .tick _ :: es => noExpire none es
  | some m, .tick n :: es => decide (n < m) && noExpire (some (m - n)) es

/-! ## PatientDetail (src/unnamed/part_002) -/

structure RecordsResponse where
  records : Option (List MedicalRecord)
deriving DecidableEq

structure PatientDetailState where
  patient : Option Patient
  records : List MedicalRecord
  loading : Bool
  error : Option String
deriving DecidableEq

/-- Source `fetchPatientData`: `Promise.all` of the patient fetch and the records
fetch; on success store the patient response and `records || []`; on a
thrown error store `err.message || 'Failed to fetch patient data'`, null
the patient and clear the records; `finally` clears the loading flag. -/
def fetchPatientData (result : Except String (Patient × RecordsResponse))
    (s : PatientDetailState) : PatientDetailState :=
  match result with
  | .ok response =>
    { s with patient := some response.1,
             records := response.2.records.getD [],
             error := none, loading := false }
  | .error e =>
    { s with error := some (errMsg e "Failed to fetch patient data"),
             patient := none, records := [], loading := false }

/-- PatientDetail render: loading screen, then the error screen when an
error is stored or no patient loaded (`error || 'Patient not found'`),
then the detail view. -/
def renderPatientDetail (s : PatientDetailState) :
    ComponentView (Patient × List MedicalRecord) :=
  match s.loading, s.error, s.patient with
  | true, _, _ => .loading
  | false, some m, _ => .errorView m
  | false, none, none => .errorView "Patient not found"
  | false, none, some p => .content (p, s.records)

/-! ## TransactionHistory (src/frontend/src/components/TransactionHistory.js) -/

structure TransactionsResponse where
  transactions : Option (List Transaction)
deriving DecidableEq

structure TransactionState where
  transactions : List Transaction
  loading : Bool
  error : Option String
deriving DecidableEq

/-- The request `fetchTransactions` always issues:
`apiService.getTransactions(null, 20)`. -/
structure GetTransactionsCall where
  walletFilter : Option String
  limit : Nat
deriving DecidableEq

def fetchTransactionsRequest : GetTransactionsCall :=
  { walletFilter := none, limit := 20 }

/-- Source `fetchTransactions`: on success store `response.transactions || []`;
on a thrown error store `err.message || 'Failed to fetch transactions'`
and clear the list; `finally` clears the loading flag. -/
def fetchTransactions (result : Except String TransactionsResponse)
    (s : TransactionState) : TransactionState :=
  match result with
  | .ok response =>
    { s with transactions := response.transactions.getD [],
             error := none, loading := false }
  | .error e =>
    { s with error := some (errMsg e "Failed to fetch transactions"),
             transactions := [], loading := false }

/-- TransactionHistory render: loading screen, then error screen, then
the transaction list. -/
def renderTransactionHistory (s : TransactionState) :
    ComponentView (List Transaction) :=
  match s.loading, s.error with
  | true, _ => .loading
  | false, some m => .errorView m
  | false, none => .content s.transactions

/-- The `[account]` effect: with a truthy account, run `fetchTransactions`
(the fixed request, answered by the external API modelled as a function
`api`); with a falsy account, clear the list and the loading flag without
touching the API at all. -/
def accountChangeEffect (account : String)
    (api : GetTransactionsCall → TransactionsResponse)
    (s : TransactionState) : TransactionState :=
  if account = "" then { s with transactions := [], loading := false }
  else fetchTransactions (.ok (api fetchTransactionsRequest)) s

/-- The `Filtering for:` indicator in the header: shown only with a
connected account, displaying the formatted wallet address. -/
def walletIndicator (account : String) : Option String :=
  if account = "" then none
  else some ("Filtering for: " ++ formatWalletAddress account)

/-! ## StatsDashboard (src/frontend/src/components/StatsDashboard.js) -/

structure StatsState where
  stats : Option Stats
  loading : Bool
  error : Option String
deriving DecidableEq

/-- Source `fetchStats`: on success store `response || null`; on a thrown error
store `err.message || 'Failed to fetch statistics'` and null the stats;
`finally` clears the loading flag. -/
def fetchStats (result : Except String (Option Stats)) (s : StatsState) :
    StatsState :=
  match result with
  | .ok response =>
    { s with stats := response, error := none, loading := false }
  | .error e =>
    { s with error := some (errMsg e "Failed to fetch statistics"),
             stats := none, loading := false }

/-- StatsDashboard render: loading screen, then the error screen when an
error is stored or no stats loaded (`error || 'No data available'`),
then the stat grid. -/
def renderStatsDashboard (s : StatsState) : ComponentView Stats :=
  match s.loading, s.error, s.stats with
  | true, _, _ => .loading
  | false, some m, _ => .errorView m
  | false, none, none => .errorView "No data available"
  | false, none, some st => .content st

/-! ## MedicalRecordCard expand/collapse map (in the same bundle as
StatsDashboard.js) -/

/-- State `expandedRecords`: a JS object used as a map keyed by record id.
Modelled as an association list; the spread `{...prev, [id]: v}` shadows
the old entry, so lookup takes the first binding. -/
def ExpandMap : Type := List (String × Bool)

/-- The expanded/collapsed display state of a record: a missing key is
`undefined`, falsy, i.e. collapsed. -/
def getFlag : ExpandMap → String → Bool
  | [], _ => false
  | (k, b) :: m, r => if r = k then b else getFlag m r

/-- Source `toggleExpand`: `setExpandedRecords(prev => ({...prev, [recordId]:
!prev[recordId]}))`. -/
def toggleExpand (recordId : String) (prev : ExpandMap) : ExpandMap :=
  (recordId, !(getFlag prev recordId)) :: prev

/-- The PatientList state as first rendered: `useState` initial values
(empty list, loading, no error, empty search strings, page 1, no
pagination metadata, no timeout scheduled yet). -/
def plInit : PatientListState :=
  { patients := [], loading := true, error := none, searchTerm := "",
    searchInput := "", currentPage := 1, pagination := none,
    debounceTimer := none }

/-! ## Helper lemmas -/

theorem length_mk (l : List Char) : (String.mk l).length = l.length := rfl

theorem debRun_cons (s : PatientListState) (e : DebEvent) (es : List DebEvent) :
    debRun s (e :: es) = debRun (debStep s e) es := rfl

/-- As long as no debounce timeout ever fires along the event sequence,
neither the debounced search term nor the page cursor changes. -/
theorem debRun_searchTerm_of_noExpire (es : List DebEvent) :
    ∀ s : PatientListState, noExpire s.debounceTimer es = true →
      (debRun s es).searchTerm = s.searchTerm ∧
      (debRun s es).currentPage = s.currentPage := by
  induction es with
  | nil => exact fun s _ => ⟨rfl, rfl⟩
  | cons e es ih =>
    intro s h
    cases e with
    | input v =>
      have h2 : noExpire (some 500) es = true := by
        cases htm : s.debounceTimer <;> rw [htm] at h <;> exact h
      rw [debRun_cons]
      exact ih _ h2
    | tick n =>
      cases htm : s.debounceTimer with
      | none =>
        rw [htm] at h
        have hstep : debStep s (.tick n) = s := by
          simp [debStep, htm]
        rw [debRun_cons, hstep]
        exact ih s (by rw [htm]; exact h)
      | some m =>
        rw [htm] at h
        simp only [noExpire, Bool.and_eq_true, decide_eq_true_eq] at h
        obtain ⟨hnm, hrest⟩ := h
        have hstep : debStep s (.tick n) = { s with debounceTimer := some (m - n) } := by
          simp only [debStep, htm]
          rw [if_neg (by omega)]
        rw [debRun_cons, hstep]
        exact ih _ hrest

/-! ## Claim theorems -/

/-- C1 (confirmed): after every successful patient fetch, `currentPage`
is set to the server-reported page, the stored pagination carries the
server-reported page and totalPages, `hasNextPage` holds iff the
server-reported page is strictly below the server-reported totalPages,
and `hasPrevPage` holds iff the server-reported page is strictly above 1. -/
theorem fetchPatients_pagination_flags (response : PatientsResponse)
    (s : PatientListState) :
    (fetchPatients (.ok response) s).currentPage = response.pagination.page ∧
    ∃ p, (fetchPatients (.ok response) s).pagination = some p ∧
      p.page = response.pagination.page ∧
      p.totalPages = response.pagination.totalPages ∧
      (p.hasNextPage = true ↔ response.pagination.page < response.pagination.totalPages) ∧
      (p.hasPrevPage = true ↔ 1 < response.pagination.page) := by
  refine ⟨rfl, _, rfl, rfl, rfl, ?_, ?_⟩ <;> simp [fetchPatients]

/-- Witness for C1 at a concrete middle page (page 2 of 5). -/
theorem fetchPatients_pagination_flags_witness :
    (fetchPatients (.ok { patients := some [], pagination := { page := 2, totalPages := 5 } })
        plInit).currentPage = 2 ∧
    ∃ p, (fetchPatients (.ok { patients := some [], pagination := { page := 2, totalPages := 5 } })
        plInit).pagination = some p ∧
      p.page = 2 ∧ p.totalPages = 5 ∧
      (p.hasNextPage = true ↔ 2 < 5) ∧ (p.hasPrevPage = true ↔ 1 < 2) :=
  fetchPatients_pagination_flags
    { patients := some [], pagination := { page := 2, totalPages := 5 } } plInit

/-- C3 (confirmed): `truncateDescription` returns the text unchanged when
its length is at most `maxLength`, and otherwise returns exactly the
first `maxLength` characters followed by `"..."` (so the result then has
length `maxLength + 3`). -/
theorem truncateDescription_spec (text : String) (maxLength : Nat) :
    (text.length ≤ maxLength → truncateDescription text maxLength = text) ∧
    (maxLength < text.length →
      truncateDescription text maxLength = String.mk (text.data.take maxLength) ++ "..." ∧
      (truncateDescription text maxLength).length = maxLength + 3) := by
  constructor
  · intro h
    simp [truncateDescription, h]
  · intro h
    have h2 : ¬ text.length ≤ maxLength := Nat.not_le.mpr h
    refine ⟨by simp [truncateDescription, h2], ?_⟩
    simp only [truncateDescription, if_neg h2, String.length_append, length_mk,
      List.length_take]
    have h3 : ("..." : String).length = 3 := rfl
    have hd : text.length = text.data.length := rfl
    rw [h3]
    rw [hd] at h
    omega

/-- Witness for C3: a short text passes through unchanged; a long one is
cut to 20 characters plus the 3-character ellipsis. -/
theorem truncateDescription_spec_witness :
    (("Short text" : String).length ≤ 20 ∧
      truncateDescription "Short text" 20 = "Short text") ∧
    (20 < ("This is a very long medical record description" : String).length ∧
      (truncateDescription "This is a very long medical record description" 20).length
        = 20 + 3) :=
  ⟨⟨by decide, (truncateDescription_spec "Short text" 20).1 (by decide)⟩,
   ⟨by decide,
    ((truncateDescription_spec "This is a very long medical record description" 20).2
      (by decide)).2⟩⟩

/-- C4 counterexample: on the non-empty address `"0x1"` the result
`"0x1...0x1"` is strictly longer than the input, so `formatWalletAddress`
is not a truncation on short addresses. -/
theorem formatWalletAddress_longer_cex :
    formatWalletAddress "0x1" = "0x1...0x1" ∧
    ¬ (formatWalletAddress "0x1").length ≤ ("0x1" : String).length := by
  constructor
  · decide
  · decide

/-- C4 (corrected): for every non-empty address the result is the first
(up to) 8 characters, `"..."`, and the last (up to) 6 characters; the
result is no longer than the input exactly when the address has at least
17 characters. -/
theorem formatWalletAddress_spec (address : String) (h : address ≠ "") :
    formatWalletAddress address =
      String.mk (address.data.take 8) ++ "..." ++
        String.mk (address.data.drop (address.data.length - 6)) ∧
    ((formatWalletAddress address).length ≤ address.length ↔ 17 ≤ address.length) := by
  refine ⟨by simp [formatWalletAddress, h], ?_⟩
  have e : (formatWalletAddress address).length =
      min 8 address.data.length + 3 +
        (address.data.length - (address.data.length - 6)) := by
    simp only [formatWalletAddress, if_neg h, String.length_append, length_mk,
      List.length_take, List.length_drop]
    have h3 : ("..." : String).length = 3 := rfl
    rw [h3]
  have hd : address.length = address.data.length := rfl
  rw [e, hd]
  omega

/-- Witness for C4 at a real 40-character wallet address. -/
theorem formatWalletAddress_spec_witness :
    ("0x742d35Cc6634C0532925a3b844Bc9e7595f0bEb" : String) ≠ "" ∧
    ((formatWalletAddress "0x742d35Cc6634C0532925a3b844Bc9e7595f0bEb").length ≤
        ("0x742d35Cc6634C0532925a3b844Bc9e7595f0bEb" : String).length ↔
      17 ≤ ("0x742d35Cc6634C0532925a3b844Bc9e7595f0bEb" : String).length) :=
  ⟨by decide,
   (formatWalletAddress_spec "0x742d35Cc6634C0532925a3b844Bc9e7595f0bEb" (by decide)).2⟩

/-- C5 (confirmed): `toggleExpand r` flips the display state stored at
key `r`, leaves every other key unchanged, and applying it twice leaves
every key looking up to the same display state as before. -/
theorem toggleExpand_involution (m : ExpandMap) (r k : String) :
    getFlag (toggleExpand r m) r = !(getFlag m r) ∧
    (k ≠ r → getFlag (toggleExpand r m) k = getFlag m k) ∧
    getFlag (toggleExpand r (toggleExpand r m)) k = getFlag m k := by
  refine ⟨?_, ?_, ?_⟩
  · simp [toggleExpand, getFlag]
  · intro h
    simp [toggleExpand, getFlag, h]
  · by_cases h : k = r
    · subst h
      simp [toggleExpand, getFlag]
    · simp [toggleExpand, getFlag, h]

/-- Witness for C5: toggling record `"rec-2"` leaves the entry of
`"rec-1"` untouched. -/
theorem toggleExpand_involution_witness :
    ("rec-1" : String) ≠ "rec-2" ∧
    getFlag (toggleExpand "rec-2" [("rec-1", true)]) "rec-1" =
      getFlag [("rec-1", true)] "rec-1" :=
  ⟨by decide, (toggleExpand_involution [("rec-1", true)] "rec-2" "rec-1").2.1 (by decide)⟩

/-- C9 (confirmed): `handleUpdateStatus` ignores whatever status value
the ConcentCard approve callback passes and always issues
`updateConsent(consentId, { status: "active" })`; the approve flow for
any consent therefore requests activation of exactly that consent. -/
theorem handleUpdateStatus_always_active (consentId passed otherPassed : String)
    (consent : Consent) :
    handleUpdateStatus consentId passed =
      { consentId := consentId, body := { status := "active" } } ∧
    handleUpdateStatus consentId passed = handleUpdateStatus consentId otherPassed ∧
    concentCardApprove consent = (consent.id, "active") ∧
    handleUpdateStatus (concentCardApprove consent).1 (concentCardApprove consent).2 =
      { consentId := consent.id, body := { status := "active" } } :=
  ⟨rfl, rfl, rfl, rfl⟩

/-- C2 (confirmed): an input change updates `searchInput` immediately but
leaves `searchTerm` and `currentPage` alone and (re)schedules the fixed
500 ms timeout, cancelling any pending one; a quiet stretch shorter than
the remaining delay changes nothing but the remaining delay; once the
full delay elapses the update fires, setting `searchTerm` to the current
`searchInput` and resetting `currentPage` to 1; and along any event
sequence in which every timeout is cancelled before expiring,
`searchTerm` never takes any intermediate value at all. -/
theorem patientList_debounce (s : PatientListState) (v : String) (m n : Nat)
    (es : List DebEvent) :
    ((debStep s (.input v)).searchTerm = s.searchTerm ∧
     (debStep s (.input v)).currentPage = s.currentPage ∧
     (debStep s (.input v)).searchInput = v ∧
     (debStep s (.input v)).debounceTimer = some 500) ∧
    (s.debounceTimer = some m → n < m →
      (debStep s (.tick n)).searchTerm = s.searchTerm ∧
      (debStep s (.tick n)).currentPage = s.currentPage ∧
      (debStep s (.tick n)).debounceTimer = some (m - n)) ∧
    (s.debounceTimer = some m → m ≤ n →
      (debStep s (.tick n)).searchTerm = s.searchInput ∧
      (debStep s (.tick n)).currentPage = 1 ∧
      (debStep s (.tick n)).debounceTimer = none) ∧
    (noExpire s.debounceTimer es = true →
      (debRun s es).searchTerm = s.searchTerm ∧
      (debRun s es).currentPage = s.currentPage) := by
  refine ⟨⟨rfl, rfl, rfl, rfl⟩, ?_, ?_, ?_⟩
  · intro htm hlt
    simp only [debStep, htm]
    rw [if_neg (by omega)]
    exact ⟨rfl, rfl, rfl⟩
  · intro htm hle
    simp only [debStep, htm]
    rw [if_pos hle]
    exact ⟨rfl, rfl, rfl⟩
  · exact debRun_searchTerm_of_noExpire es s

/-- Witness for C2: from the initial state, typing `"a"`, waiting only
300 ms, typing `"ab"` and waiting 300 ms more never changes the (empty)
search term; a full 500 ms of quiet after typing `"a"` fires the update,
setting the search term to `"a"` and the page back to 1. -/
theorem patientList_debounce_witness :
    (debStep plInit (.input "a")).debounceTimer = some 500 ∧
    (300 : Nat) < 500 ∧
    (debStep (debStep plInit (.input "a")) (.tick 300)).searchTerm = "" ∧
    (500 : Nat) ≤ 500 ∧
    (debStep (debStep plInit (.input "a")) (.tick 500)).searchTerm = "a" ∧
    (debStep (debStep plInit (.input "a")) (.tick 500)).currentPage = 1 ∧
    noExpire plInit.debounceTimer
      [DebEvent.input "a", DebEvent.tick 300, DebEvent.input "ab", DebEvent.tick 300]
      = true ∧
    (debRun plInit
      [DebEvent.input "a", DebEvent.tick 300, DebEvent.input "ab", DebEvent.tick 300]).searchTerm
      = "" :=
  ⟨rfl, by decide,
   ((patientList_debounce (debStep plInit (.input "a")) "" 500 300 []).2.1 rfl
      (by decide)).1,
   by decide,
   ((patientList_debounce (debStep plInit (.input "a")) "" 500 500 []).2.2.1 rfl
      (by decide)).1,
   ((patientList_debounce (debStep plInit (.input "a")) "" 500 500 []).2.2.1 rfl
      (by decide)).2.1,
   by decide,
   ((patientList_debounce plInit "" 500 500
      [DebEvent.input "a", DebEvent.tick 300, DebEvent.input "ab", DebEvent.tick 300]).2.2.2
      (by decide)).1⟩

/-- C6 (confirmed): in every data-fetching component a thrown API error
is caught; the stored message is `err.message`, or the component's fixed
fallback when the message is missing; the owned data state is cleared
(lists to empty, single entities to null), loading ends, and the
component renders the error screen with exactly the stored message. -/
theorem catch_store_display (e : String) (cs : ConsentState)
    (pls : PatientListState) (pds : PatientDetailState)
    (ts : TransactionState) (ss : StatsState) :
    (e ≠ "" → errMsg e "Failed to fetch consents" = e) ∧
    errMsg "" "Failed to fetch consents" = "Failed to fetch consents" ∧
    ((fetchConsents (.error e) cs).error = some (errMsg e "Failed to fetch consents") ∧
     (fetchConsents (.error e) cs).consents = [] ∧
     (fetchConsents (.error e) cs).loading = false ∧
     renderConsentManagement (fetchConsents (.error e) cs) =
       .errorView (errMsg e "Failed to fetch consents")) ∧
    ((fetchPatients (.error e) pls).error = some (errMsg e "Failed to fetch patients") ∧
     (fetchPatients (.error e) pls).patients = [] ∧
     (fetchPatients (.error e) pls).loading = false ∧
     renderPatientList (fetchPatients (.error e) pls) =
       .errorView (errMsg e "Failed to fetch patients")) ∧
    ((fetchPatientData (.error e) pds).error =
       some (errMsg e "Failed to fetch patient data") ∧
     (fetchPatientData (.error e) pds).patient = none ∧
     (fetchPatientData (.error e) pds).records = [] ∧
     (fetchPatientData (.error e) pds).loading = false ∧
     renderPatientDetail (fetchPatientData (.error e) pds) =
       .errorView (errMsg e "Failed to fetch patient data")) ∧
    ((fetchTransactions (.error e) ts).error =
       some (errMsg e "Failed to fetch transactions") ∧
     (fetchTransactions (.error e) ts).transactions = [] ∧
     (fetchTransactions (.error e) ts).loading = false ∧
     renderTransactionHistory (fetchTransactions (.error e) ts) =
       .errorView (errMsg e "Failed to fetch transactions")) ∧
    ((fetchStats (.error e) ss).error = some (errMsg e "Failed to fetch statistics") ∧
     (fetchStats (.error e) ss).stats = none ∧
     (fetchStats (.error e) ss).loading = false ∧
     renderStatsDashboard (fetchStats (.error e) ss) =
       .errorView (errMsg e "Failed to fetch statistics")) := by
  refine ⟨fun h => by simp [errMsg, h], rfl,
    ⟨rfl, rfl, rfl, rfl⟩, ⟨rfl, rfl, rfl, rfl⟩, ⟨rfl, rfl, rfl, rfl, rfl⟩,
    ⟨rfl, rfl, rfl, rfl⟩, ⟨rfl, rfl, rfl, rfl⟩⟩

/-- Witness for C6: a concrete thrown message is stored verbatim. -/
theorem catch_store_display_witness :
    ("boom" : String) ≠ "" ∧ errMsg "boom" "Failed to fetch consents" = "boom" :=
  ⟨by decide,
   (catch_store_display "boom"
      { consents := [], loading := true, error := none, filterStatus := "all" }
      plInit
      { patient := none, records := [], loading := true, error := none }
      { transactions := [], loading := true, error := none }
      { stats := none, loading := true, error := none }).1 (by decide)⟩

/-- C7 counterexample: a successful response that does carry a consent
array — the empty one — also leaves the stored list empty, so the stored
state equals the empty array without the response lacking an entity
array; the claim's "only when" direction is false. -/
theorem entities_passthrough_cex :
    (fetchConsents (.ok { consents := some ([] : List Consent) })
      { consents := [], loading := true, error := none, filterStatus := "all" }).consents
      = [] ∧
    ({ consents := some ([] : List Consent) } : ConsentsResponse).consents ≠ none ∧
    ¬ (∀ (response : ConsentsResponse) (s : ConsentState),
        (fetchConsents (.ok response) s).consents = [] → response.consents = none) := by
  refine ⟨rfl, by simp, fun hclaim => ?_⟩
  have := hclaim { consents := some [] }
    { consents := [], loading := true, error := none, filterStatus := "all" } rfl
  simp at this

/-- C7 (corrected): every successful fetch stores exactly the entity
array (or entity object) carried by the response — same elements, same
order, no client-side transformation — and stores the empty array
whenever the response carries no entity array (hence also when the
carried array is itself empty). -/
theorem entities_passthrough (E : List Consent) (T : List Transaction)
    (R : List MedicalRecord) (P : List Patient) (p : Patient)
    (st : Option Stats) (pg : PaginationData) (cs : ConsentState)
    (ts : TransactionState) (pds : PatientDetailState)
    (pls : PatientListState) (ss : StatsState) :
    ((fetchConsents (.ok { consents := some E }) cs).consents = E ∧
     (fetchConsents (.ok { consents := none }) cs).consents = []) ∧
    ((fetchTransactions (.ok { transactions := some T }) ts).transactions = T ∧
     (fetchTransactions (.ok { transactions := none }) ts).transactions = []) ∧
    ((fetchPatientData (.ok (p, { records := some R })) pds).patient = some p ∧
     (fetchPatientData (.ok (p, { records := some R })) pds).records = R ∧
     (fetchPatientData (.ok (p, { records := none })) pds).records = []) ∧
    ((fetchPatients (.ok { patients := some P, pagination := pg }) pls).patients = P ∧
     (fetchPatients (.ok { patients := none, pagination := pg }) pls).patients = []) ∧
    (fetchStats (.ok st) ss).stats = st :=
  ⟨⟨rfl, rfl⟩, ⟨rfl, rfl⟩, ⟨rfl, rfl, rfl⟩, ⟨rfl, rfl⟩, rfl⟩

/-- C8 counterexample: `formatDate` is not determined by the input string
alone — the same ISO date `"1985-03-15"` renders as `"Mar 15, 1985"` in a
UTC host and as `"Mar 14, 1985"` in a UTC-05:00 host, because `new Date`
parses the string to UTC midnight while `toLocaleDateString` renders it
in the host timezone. -/
theorem formatDate_env_cex :
    formatDate { tzOffsetMinutes := 0, nowEpochMillis := 0 } "1985-03-15"
      = "Mar 15, 1985" ∧
    formatDate { tzOffsetMinutes := -300, nowEpochMillis := 0 } "1985-03-15"
      = "Mar 14, 1985" ∧
    formatDate { tzOffsetMinutes := 0, nowEpochMillis := 0 } "1985-03-15" ≠
      formatDate { tzOffsetMinutes := -300, nowEpochMillis := 0 } "1985-03-15" := by
  refine ⟨by decide, by decide, by decide⟩

/-- C8 (corrected): `formatDate`'s output is determined by the input
string together with the host timezone offset: any two environments with
the same offset — regardless of clock or any other ambient state —
produce the same rendering for the same input. -/
theorem formatDate_deterministic (env1 env2 : JsEnv) (s : String)
    (h : env1.tzOffsetMinutes = env2.tzOffsetMinutes) :
    formatDate env1 s = formatDate env2 s := by
  simp only [formatDate, h]

/-- Witness for C8: two UTC-05:00 environments with different clocks
render `"2024-01-15"` identically. -/
theorem formatDate_deterministic_witness :
    ({ tzOffsetMinutes := -300, nowEpochMillis := 0 } : JsEnv).tzOffsetMinutes =
      ({ tzOffsetMinutes := -300, nowEpochMillis := 123456789 } : JsEnv).tzOffsetMinutes ∧
    formatDate { tzOffsetMinutes := -300, nowEpochMillis := 0 } "2024-01-15" =
      formatDate { tzOffsetMinutes := -300, nowEpochMillis := 123456789 } "2024-01-15" :=
  ⟨rfl,
   formatDate_deterministic { tzOffsetMinutes := -300, nowEpochMillis := 0 }
     { tzOffsetMinutes := -300, nowEpochMillis := 123456789 } "2024-01-15" rfl⟩

/-- C10 (confirmed): for any two non-empty connected accounts the
component issues the identical fixed request (no wallet filter, limit
20), so against the same external API both runs end in the same state;
an empty account clears the list and loading flag without consulting the
API at all; the account value otherwise shows up only in the
`Filtering for:` indicator, as the formatted wallet address. -/
theorem transactionHistory_account_noninterference (a1 a2 : String)
    (api api2 : GetTransactionsCall → TransactionsResponse)
    (s : TransactionState) (response : TransactionsResponse) :
    (a1 ≠ "" → a2 ≠ "" →
      accountChangeEffect a1 api s = accountChangeEffect a2 api s ∧
      accountChangeEffect a1 api s =
        fetchTransactions (.ok (api { walletFilter := none, limit := 20 })) s) ∧
    (accountChangeEffect "" api s = { s with transactions := [], loading := false } ∧
     accountChangeEffect "" api s = accountChangeEffect "" api2 s) ∧
    (a1 ≠ "" → walletIndicator a1 = some ("Filtering for: " ++ formatWalletAddress a1)) ∧
    walletIndicator "" = none ∧
    (fetchTransactions (.ok response) s).transactions = response.transactions.getD [] := by
  refine ⟨?_, ⟨?_, ?_⟩, ?_, ?_, rfl⟩
  · intro h1 h2
    constructor
    · simp [accountChangeEffect, h1, h2]
    · simp [accountChangeEffect, h1, fetchTransactionsRequest]
  · simp [accountChangeEffect]
  · simp [accountChangeEffect]
  · intro h1
    simp [walletIndicator, h1]
  · simp [walletIndicator]

/-- Witness for C10: two concrete distinct accounts produce the same
fetched state against the same API stub. -/
theorem transactionHistory_account_noninterference_witness :
    ("0xaaa" : String) ≠ "" ∧ ("0xbbb" : String) ≠ "" ∧
    accountChangeEffect "0xaaa" (fun _ => { transactions := none })
        { transactions := [], loading := true, error := none } =
      accountChangeEffect "0xbbb" (fun _ => { transactions := none })
        { transactions := [], loading := true, error := none } :=
  ⟨by decide, by decide,
   ((transactionHistory_account_noninterference "0xaaa" "0xbbb"
      (fun _ => { transactions := none }) (fun _ => { transactions := none })
      { transactions := [], loading := true, error := none }
      { transactions := none }).1 (by decide) (by decide)).1⟩

end HealthChain
